import Mathlib

/-!
Verification of the shortfinder backend (src/backend/youtube_api.py and
src/backend/main.py) against its natural-language specification.

The upstream JSON shapes are embedded as Lean structures whose fields are
`Option`-valued: `none` models an absent dictionary key.  Python's direct
indexing `d["k"]` is modelled by `idx`, which fails (like `KeyError`) when
the key is absent, while Python's `d.get("k", default)` is modelled by
`Option.getD`.  Normalization functions return `Except String _`, where
`Except.error` models a raised exception; the Flask handlers catch every
exception and turn it into an HTTP 500 response, which the router model
reproduces.  Each handler also reports the list of upstream calls it
issues, so that "no upstream call is made" is expressible.
-/

namespace Shortfinder

/-- A thumbnail variant object; its `url` key may be absent. -/
structure Thumbnail where
  url : Option String
deriving Repr, DecidableEq

/-- The `thumbnails` facet: variant keys `default` and `high` may be absent. -/
structure Thumbnails where
  default : Option Thumbnail
  high : Option Thumbnail
deriving Repr, DecidableEq

/-- The `id` object of a search result item; `videoId` may be absent
(playlist/channel results lack it). -/
structure SearchId where
  videoId : Option String
deriving Repr, DecidableEq

/-- The `snippet` facet of a search result item; every key may be absent. -/
structure SearchSnippet where
  title : Option String
  description : Option String
  thumbnails : Option Thumbnails
  channelTitle : Option String
  publishedAt : Option String
deriving Repr, DecidableEq

/-- One upstream search result item; the `id` and `snippet` facets may be
absent. -/
structure SearchItem where
  id : Option SearchId
  snippet : Option SearchSnippet
deriving Repr, DecidableEq

/-- An upstream search response; the `items` key may be absent. -/
structure SearchResponse where
  items : Option (List SearchItem)
deriving Repr, DecidableEq

/-- The `snippet` facet of a videos-list item; every key may be absent. -/
structure DetailSnippet where
  title : Option String
  description : Option String
  channelId : Option String
  channelTitle : Option String
  publishedAt : Option String
  thumbnails : Option Thumbnails
  tags : Option (List String)
  categoryId : Option String
deriving Repr, DecidableEq

/-- The `contentDetails` facet; `duration` may be absent. -/
structure ContentDetails where
  duration : Option String
deriving Repr, DecidableEq

/-- The `statistics` facet; each count key may be absent.  The code copies
the values verbatim, so they are modelled as the (integer) upstream JSON
values. -/
structure Statistics where
  viewCount : Option Int
  likeCount : Option Int
  commentCount : Option Int
deriving Repr, DecidableEq

/-- One upstream videos-list item (used by the detail lookup and the
trending chart); here `id` is a plain string key that may be absent, and
each facet may be absent. -/
structure VideoItem where
  id : Option String
  snippet : Option DetailSnippet
  contentDetails : Option ContentDetails
  statistics : Option Statistics
deriving Repr, DecidableEq

/-- An upstream videos-list response; the `items` key may be absent. -/
structure VideosResponse where
  items : Option (List VideoItem)
deriving Repr, DecidableEq

/-- Output record built by search normalization (`short_data` dict in
`YouTubeAPI.search_shorts`). -/
structure ShortSummary where
  video_id : String
  title : Option String
  description : Option String
  thumbnail : String
  channel_title : Option String
  published_at : Option String
deriving Repr, DecidableEq

/-- Output record built by `YouTubeAPI.get_video_details`
(`video_details` dict). -/
structure ShortDetail where
  video_id : String
  title : Option String
  description : Option String
  channel_id : Option String
  channel_title : Option String
  published_at : Option String
  thumbnail : String
  duration : String
  view_count : Int
  like_count : Int
  comment_count : Int
  tags : List String
  category_id : Option String
deriving Repr, DecidableEq

/-- Output record built by `YouTubeAPI.get_trending_shorts`
(`trending_data` dict). -/
structure TrendingEntry where
  video_id : String
  title : Option String
  description : Option String
  thumbnail : String
  channel_title : Option String
  published_at : Option String
  view_count : Int
deriving Repr, DecidableEq

/-- Python direct dictionary indexing `d[key]`: raises `KeyError` when the
key is absent. -/
def idx {α : Type} (o : Option α) (key : String) : Except String α :=
  match o with
  | some v => Except.ok v
  | none => Except.error ("KeyError: " ++ key)

/-- Normalization of one search item, following the loop body of
`YouTubeAPI.search_shorts` lines 43-54: `video_id = item["id"].get("videoId")`,
the truthiness test `if video_id:` (which skips both a missing and an empty
identifier), then the `short_data` dict literal, whose `thumbnail` entry
indexes `item["snippet"]["thumbnails"]["default"]["url"]` directly.
Returns `none` for a skipped item. -/
def normalizeSearchItem (item : SearchItem) : Except String (Option ShortSummary) := do
  let i ← idx item.id "id"
  match i.videoId with
  | none => pure none
  | some vid =>
    if vid = "" then
      pure none
    else do
      let snip ← idx item.snippet "snippet"
      let thumbs ← idx snip.thumbnails "thumbnails"
      let deflt ← idx thumbs.default "default"
      let url ← idx deflt.url "url"
      pure (some
        { video_id := vid
          title := snip.title
          description := snip.description
          thumbnail := url
          channel_title := snip.channelTitle
          published_at := snip.publishedAt })

/-- The accumulation loop of `YouTubeAPI.search_shorts`: normalize each
item in order, appending the non-skipped ones. -/
def normalizeSearchItems : List SearchItem → Except String (List ShortSummary)
  | [] => Except.ok []
  | item :: rest => do
    let o ← normalizeSearchItem item
    let tail ← normalizeSearchItems rest
    match o with
    | some s => pure (s :: tail)
    | none => pure tail

/-- `YouTubeAPI.search_shorts` applied to an upstream response:
`response.get("items", [])` then the normalization loop. -/
def search_shorts (resp : SearchResponse) : Except String (List ShortSummary) :=
  normalizeSearchItems (resp.items.getD [])

/-- Normalization of the first item in `YouTubeAPI.get_video_details`
lines 80-96, in Python evaluation order: `item["contentDetails"].get("duration", "")`
first, then the `video_details` dict literal, which indexes
`item["snippet"]` (at `title`), `item["snippet"]["thumbnails"]["high"]["url"]`
(at `thumbnail`) and `item["statistics"]` (at `view_count`) directly; every
other field uses `.get` with a default.  `video_id` is the caller's
argument, not read from the item. -/
def normalizeVideoItem (video_id : String) (item : VideoItem) :
    Except String ShortDetail := do
  let cd ← idx item.contentDetails "contentDetails"
  let duration := cd.duration.getD ""
  let snip ← idx item.snippet "snippet"
  let thumbs ← idx snip.thumbnails "thumbnails"
  let hi ← idx thumbs.high "high"
  let url ← idx hi.url "url"
  let stats ← idx item.statistics "statistics"
  pure
    { video_id := video_id
      title := snip.title
      description := snip.description
      channel_id := snip.channelId
      channel_title := snip.channelTitle
      published_at := snip.publishedAt
      thumbnail := url
      duration := duration
      view_count := stats.viewCount.getD 0
      like_count := stats.likeCount.getD 0
      comment_count := stats.commentCount.getD 0
      tags := snip.tags.getD []
      category_id := snip.categoryId }

/-- `YouTubeAPI.get_video_details`: if `response.get("items")` is truthy
(present and non-empty) the first item is normalized, otherwise the result
is `None` (modelled as `Except.ok none`). -/
def get_video_details (video_id : String) (resp : VideosResponse) :
    Except String (Option ShortDetail) :=
  match resp.items with
  | some (item :: _) => (normalizeVideoItem video_id item).map some
  | _ => Except.ok none

/-- Normalization of one trending item, following the loop body of
`YouTubeAPI.get_trending_shorts` lines 132-141, in Python evaluation
order: `item["id"]`, then `item["snippet"]` (at `title`),
`item["snippet"]["thumbnails"]["default"]["url"]` (at `thumbnail`) and
`item["statistics"]` (at `view_count`) directly; the counts use `.get`
with default 0. -/
def normalizeTrendingItem (item : VideoItem) : Except String TrendingEntry := do
  let vid ← idx item.id "id"
  let snip ← idx item.snippet "snippet"
  let thumbs ← idx snip.thumbnails "thumbnails"
  let deflt ← idx thumbs.default "default"
  let url ← idx deflt.url "url"
  let stats ← idx item.statistics "statistics"
  pure
    { video_id := vid
      title := snip.title
      description := snip.description
      thumbnail := url
      channel_title := snip.channelTitle
      published_at := snip.publishedAt
      view_count := stats.viewCount.getD 0 }

/-- The accumulation loop of `YouTubeAPI.get_trending_shorts`: every item
is normalized and appended, in order. -/
def normalizeTrendingItems : List VideoItem → Except String (List TrendingEntry)
  | [] => Except.ok []
  | item :: rest => do
    let e ← normalizeTrendingItem item
    let tail ← normalizeTrendingItems rest
    pure (e :: tail)

/-- `YouTubeAPI.get_trending_shorts` applied to an upstream response:
`response.get("items", [])` then the normalization loop. -/
def get_trending_shorts (resp : VideosResponse) : Except String (List TrendingEntry) :=
  normalizeTrendingItems (resp.items.getD [])

/-- Python digit-run validity for `int(...)`: a non-empty run of decimal
digits in which every underscore sits between two digits.  The first
character is checked by the caller, so here an underscore is accepted only
when followed by a digit, and a trailing underscore is rejected. -/
def pyDigits : List Char → Bool
  | [] => false
  | [c] => c.isDigit
  | c :: rest =>
    if c.isDigit then pyDigits rest
    else if c = '_' then
      match rest with
      | d :: _ => d.isDigit && pyDigits rest
      | [] => false
    else false

/-- Numeric value of a run of decimal digits. -/
def digitsToNat (cs : List Char) : Nat :=
  cs.foldl (fun a c => 10 * a + (c.toNat - '0'.toNat)) 0

/-- Surrounding-whitespace strip over a character list (the whitespace
tolerance of Python `int`). -/
def pyStrip (cs : List Char) : List Char :=
  ((cs.dropWhile Char.isWhitespace).reverse.dropWhile Char.isWhitespace).reverse

/-- Model of Python `int(s)` for strings: strip surrounding whitespace,
allow one optional sign, then a digit run with optional single underscores
between digits; `none` models a raised `ValueError`. -/
def pyInt (s : String) : Option Int :=
  let cs := pyStrip s.toList
  let core : List Char :=
    match cs with
    | '-' :: rest => rest
    | '+' :: rest => rest
    | _ => cs
  let neg : Bool :=
    match cs with
    | '-' :: _ => true
    | _ => false
  match core with
  | [] => none
  | c :: _ =>
    if c.isDigit && pyDigits core then
      let n := digitsToNat (core.filter (fun ch => ch ≠ '_'))
      some (if neg then -(n : Int) else (n : Int))
    else none

/-- The query string of a request, as seen by Flask `request.args`:
each parameter is either absent or a string value. -/
structure Args where
  q : Option String
  max_results : Option String
  region : Option String
deriving Repr, DecidableEq

/-- Flask `request.args.get(key, default=d, type=int)`: absent key gives
the default, and a present value that `int` rejects also gives the default
(Flask swallows the conversion error). -/
def flaskGetInt (o : Option String) (d : Int) : Int :=
  match o with
  | none => d
  | some s => (pyInt s).getD d

/-- Flask `request.args.get(key, default=d)` for a string parameter. -/
def flaskGetStr (o : Option String) (d : String) : String :=
  o.getD d

/-- JSON body of an HTTP response: either the error envelope
`\x7b"error": msg\x7d` or a success envelope `\x7b"success": true, "data": ...\x7d`
wrapping one of the three payload shapes. -/
inductive RespBody where
  | error (msg : String)
  | searchData (data : List ShortSummary)
  | detailData (data : ShortDetail)
  | trendingData (data : List TrendingEntry)
deriving Repr, DecidableEq

/-- An HTTP response: status code and JSON body. -/
structure HttpResponse where
  status : Nat
  body : RespBody
deriving Repr, DecidableEq

/-- One call issued against the upstream API, with the request parameters
the code passes. -/
inductive UpstreamCall where
  | search (q : String) (maxResults : Int)
  | videos (videoId : String)
  | trendingChart (region : String) (maxResults : Int)
deriving Repr, DecidableEq

/-- The `/api/shorts/search` handler (`search_shorts` in main.py): read
`q` and `max_results`, return 400 when `q` is absent or empty (falsy)
without calling upstream; otherwise issue the upstream search and either
wrap the normalized results in a 200 success envelope, or catch any raised
exception and return 500 with its message.  The second component lists the
upstream calls issued. -/
def searchEndpoint (args : Args) (upstream : Except String SearchResponse) :
    HttpResponse × List UpstreamCall :=
  let max_results := flaskGetInt args.max_results 10
  match args.q with
  | none => (⟨400, RespBody.error "Query parameter 'q' is required"⟩, [])
  | some q =>
    if q = "" then
      (⟨400, RespBody.error "Query parameter 'q' is required"⟩, [])
    else
      (match upstream with
        | Except.error e => ⟨500, RespBody.error e⟩
        | Except.ok resp =>
          match search_shorts resp with
          | Except.error e => ⟨500, RespBody.error e⟩
          | Except.ok results => ⟨200, RespBody.searchData results⟩,
       [UpstreamCall.search q max_results])

/-- The `/api/shorts/<video_id>` handler (`get_short_details` in main.py):
issue the upstream lookup; `None` (empty or absent upstream item list)
gives 404 with `\x7b"error": "Video not found"\x7d`, a normalized detail gives
200, and any raised exception gives 500 with its message. -/
def detailEndpoint (video_id : String) (upstream : Except String VideosResponse) :
    HttpResponse × List UpstreamCall :=
  (match upstream with
    | Except.error e => ⟨500, RespBody.error e⟩
    | Except.ok resp =>
      match get_video_details video_id resp with
      | Except.error e => ⟨500, RespBody.error e⟩
      | Except.ok (some d) => ⟨200, RespBody.detailData d⟩
      | Except.ok none => ⟨404, RespBody.error "Video not found"⟩,
   [UpstreamCall.videos video_id])

/-- The `/api/shorts/trending` handler (`get_trending_shorts` in main.py):
read `region` (default "US") and `max_results` (default 10), issue the
upstream chart query, wrap normalized results in a 200 success envelope,
and catch any raised exception into a 500 response. -/
def trendingEndpoint (args : Args) (upstream : Except String VideosResponse) :
    HttpResponse × List UpstreamCall :=
  let region := flaskGetStr args.region "US"
  let max_results := flaskGetInt args.max_results 10
  (match upstream with
    | Except.error e => ⟨500, RespBody.error e⟩
    | Except.ok resp =>
      match get_trending_shorts resp with
      | Except.error e => ⟨500, RespBody.error e⟩
      | Except.ok results => ⟨200, RespBody.trendingData results⟩,
   [UpstreamCall.trendingChart region max_results])

/-- Identifier resolvability, stated from the specification's words: a
search item's video identifier is resolvable when the `id` object carries a
non-empty `videoId`.  Used to compare the implementation's filtering with
the spec's "skips any upstream item lacking a resolvable video
identifier". -/
def specResolvableId (item : SearchItem) : Option String :=
  match item.id with
  | some i =>
    match i.videoId with
    | some v => if v = "" then none else some v
    | none => none
  | none => none

/-- A resolvable identifier is never the empty string. -/
lemma specResolvableId_ne_empty (item : SearchItem) (v : String)
    (h : specResolvableId item = some v) : v ≠ "" := by
  rcases item with ⟨oid, osnip⟩
  cases oid with
  | none => simp [specResolvableId] at h
  | some i =>
    rcases i with ⟨ovid⟩
    cases ovid with
    | none => simp [specResolvableId] at h
    | some w =>
      by_cases hw : w = ""
      · simp [specResolvableId, hw] at h
      · simp [specResolvableId, hw] at h
        subst h
        exact hw

/-- Inversion for one search item: a successful normalization carries the
item's resolvable identifier (`some` exactly when the item is kept). -/
lemma normalizeSearchItem_ok (item : SearchItem) (o : Option ShortSummary)
    (h : normalizeSearchItem item = Except.ok o) :
    o.map (fun s => s.video_id) = specResolvableId item := by
  rcases item with ⟨oid, osnip⟩
  cases oid with
  | none => simp [normalizeSearchItem, idx, Bind.bind, Except.bind] at h
  | some i =>
    rcases i with ⟨ovid⟩
    cases ovid with
    | none =>
      simp [normalizeSearchItem, idx, Bind.bind, Except.bind, Pure.pure, Except.pure] at h
      subst h
      rfl
    | some v =>
      by_cases hv : v = ""
      · subst hv
        simp [normalizeSearchItem, idx, Bind.bind, Except.bind, Pure.pure, Except.pure] at h
        subst h
        rfl
      · cases osnip with
        | none =>
          simp [normalizeSearchItem, idx, hv, Bind.bind, Except.bind, Functor.map,
            Except.map] at h
        | some snip =>
          rcases snip with ⟨t, de, oth, ct, pa⟩
          cases oth with
          | none =>
            simp [normalizeSearchItem, idx, hv, Bind.bind, Except.bind, Functor.map,
              Except.map] at h
          | some th =>
            rcases th with ⟨odef, ohigh⟩
            cases odef with
            | none =>
              simp [normalizeSearchItem, idx, hv, Bind.bind, Except.bind, Functor.map,
                Except.map] at h
            | some deflt =>
              rcases deflt with ⟨ourl⟩
              cases ourl with
              | none =>
                simp [normalizeSearchItem, idx, hv, Bind.bind, Except.bind, Functor.map,
                  Except.map] at h
              | some u =>
                simp [normalizeSearchItem, idx, hv, Bind.bind, Except.bind, Functor.map,
                  Except.map, Pure.pure, Except.pure] at h
                subst h
                simp [specResolvableId, hv]

/-- The search accumulation loop keeps exactly the items with a resolvable
identifier, in order: on success, the output identifiers are the
`filterMap` of `specResolvableId` over the input. -/
lemma normalizeSearchItems_ok (items : List SearchItem) (out : List ShortSummary)
    (h : normalizeSearchItems items = Except.ok out) :
    out.map (fun s => s.video_id) = items.filterMap specResolvableId := by
  induction items generalizing out with
  | nil =>
    simp [normalizeSearchItems] at h
    subst h
    rfl
  | cons item rest ih =>
    cases hi : normalizeSearchItem item with
    | error e => simp [normalizeSearchItems, hi, Bind.bind, Except.bind] at h
    | ok o =>
      cases ht : normalizeSearchItems rest with
      | error e => simp [normalizeSearchItems, hi, ht, Bind.bind, Except.bind] at h
      | ok tail =>
        have hv := normalizeSearchItem_ok item o hi
        have ihv := ih tail ht
        cases o with
        | some s =>
          simp [normalizeSearchItems, hi, ht, Bind.bind, Except.bind, Pure.pure,
            Except.pure] at h
          subst h
          simp at hv
          simp [List.filterMap_cons, ← hv, ihv]
        | none =>
          simp [normalizeSearchItems, hi, ht, Bind.bind, Except.bind, Pure.pure,
            Except.pure] at h
          subst h
          simp at hv
          simp [List.filterMap_cons, ← hv, ihv]

/-- Inversion for one trending item: a successful normalization echoes the
item's `id` value as the entry's `video_id`. -/
lemma normalizeTrendingItem_ok (item : VideoItem) (e : TrendingEntry)
    (h : normalizeTrendingItem item = Except.ok e) : item.id = some e.video_id := by
  rcases item with ⟨oid, osnip, ocd, ostat⟩
  cases oid with
  | none => simp [normalizeTrendingItem, idx, Bind.bind, Except.bind] at h
  | some vid =>
    cases osnip with
    | none => simp [normalizeTrendingItem, idx, Bind.bind, Except.bind] at h
    | some snip =>
      rcases snip with ⟨t, de, cid, ct, pa, oth, tg, cat⟩
      cases oth with
      | none => simp [normalizeTrendingItem, idx, Bind.bind, Except.bind] at h
      | some th =>
        rcases th with ⟨odef, ohigh⟩
        cases odef with
        | none => simp [normalizeTrendingItem, idx, Bind.bind, Except.bind] at h
        | some deflt =>
          rcases deflt with ⟨ourl⟩
          cases ourl with
          | none => simp [normalizeTrendingItem, idx, Bind.bind, Except.bind] at h
          | some u =>
            cases ostat with
            | none => simp [normalizeTrendingItem, idx, Bind.bind, Except.bind] at h
            | some st =>
              simp [normalizeTrendingItem, idx, Bind.bind, Except.bind, Pure.pure,
                Except.pure] at h
              subst h
              rfl

/-- Inversion for the detail normalizer: a successful normalization echoes
the caller's `video_id` argument into the record. -/
lemma normalizeVideoItem_vid (vid : String) (item : VideoItem) (d : ShortDetail)
    (h : normalizeVideoItem vid item = Except.ok d) : d.video_id = vid := by
  rcases item with ⟨oid, osnip, ocd, ostat⟩
  cases ocd with
  | none => simp [normalizeVideoItem, idx, Bind.bind, Except.bind] at h
  | some cd =>
    cases osnip with
    | none => simp [normalizeVideoItem, idx, Bind.bind, Except.bind] at h
    | some snip =>
      rcases snip with ⟨t, de, cid, ct, pa, oth, tg, cat⟩
      cases oth with
      | none => simp [normalizeVideoItem, idx, Bind.bind, Except.bind] at h
      | some th =>
        rcases th with ⟨odef, ohigh⟩
        cases ohigh with
        | none => simp [normalizeVideoItem, idx, Bind.bind, Except.bind] at h
        | some hi =>
          rcases hi with ⟨ourl⟩
          cases ourl with
          | none => simp [normalizeVideoItem, idx, Bind.bind, Except.bind] at h
          | some u =>
            cases ostat with
            | none => simp [normalizeVideoItem, idx, Bind.bind, Except.bind] at h
            | some st =>
              simp [normalizeVideoItem, idx, Bind.bind, Except.bind, Pure.pure,
                Except.pure] at h
              subst h
              rfl

/-- C1: the claim as stated is false.  At an upstream search item whose
`snippet` facet is present but whose `thumbnails` sub-object is absent,
`search_shorts` raises a missing-key error (`item["snippet"]["thumbnails"]`
is indexed directly), so absence of the thumbnails sub-object IS surfaced
to the caller as an error. -/
theorem C1_counterexample :
    search_shorts
        ⟨some [⟨some ⟨some "abc"⟩, some ⟨some "t", none, none, none, none⟩⟩]⟩ =
      Except.error "KeyError: thumbnails" := rfl

/-- C1 (amended): normalization completes without a missing-key error and
maps absent optional leaf fields to defined defaults whenever the facets
the code indexes directly are present — for search, the `id` object and
(for a kept item) the `snippet` facet with a `thumbnails.default.url`
chain; for detail, the `contentDetails`, `snippet` (with
`thumbnails.high.url`) and `statistics` facets; for trending, the `id`
key, `snippet` (with `thumbnails.default.url`) and `statistics`.  Absence
of any of those indexed facets raises a missing-key error instead. -/
theorem C1_theorem :
    (∀ (vid : String), vid ≠ "" → ∀ (t de ct pa : Option String) (u : String)
      (hi : Option Thumbnail),
      normalizeSearchItem
          ⟨some ⟨some vid⟩, some ⟨t, de, some ⟨some ⟨some u⟩, hi⟩, ct, pa⟩⟩ =
        Except.ok (some ⟨vid, t, de, u, ct, pa⟩)) ∧
    (∀ (vid : String) (oid : Option String) (t de cid ct pa : Option String)
      (odef : Option Thumbnail) (u : String) (tg : Option (List String))
      (cat dur : Option String) (vc lc cc : Option Int),
      normalizeVideoItem vid
          ⟨oid, some ⟨t, de, cid, ct, pa, some ⟨odef, some ⟨some u⟩⟩, tg, cat⟩,
            some ⟨dur⟩, some ⟨vc, lc, cc⟩⟩ =
        Except.ok ⟨vid, t, de, cid, ct, pa, u, dur.getD "", vc.getD 0, lc.getD 0,
          cc.getD 0, tg.getD [], cat⟩) ∧
    (∀ (vid : String) (t de cid ct pa : Option String) (ohigh : Option Thumbnail)
      (u : String) (tg : Option (List String)) (cat : Option String)
      (ocd : Option ContentDetails) (vc lc cc : Option Int),
      normalizeTrendingItem
          ⟨some vid, some ⟨t, de, cid, ct, pa, some ⟨some ⟨some u⟩, ohigh⟩, tg, cat⟩,
            ocd, some ⟨vc, lc, cc⟩⟩ =
        Except.ok ⟨vid, t, de, u, ct, pa, vc.getD 0⟩) := by
  refine ⟨?_, ?_, ?_⟩
  · intro vid h t de ct pa u hi
    simp [normalizeSearchItem, idx, h, Bind.bind, Except.bind, Functor.map,
      Except.map, Pure.pure, Except.pure]
  · intro vid oid t de cid ct pa odef u tg cat dur vc lc cc
    rfl
  · intro vid t de cid ct pa ohigh u tg cat ocd vc lc cc
    rfl

/-- C1 witness: the amended theorem applied at concrete items with every
optional leaf absent. -/
theorem C1_witness :
    normalizeSearchItem
        ⟨some ⟨some "a1"⟩,
          some ⟨some "t", none, some ⟨some ⟨some "u"⟩, none⟩, none, none⟩⟩ =
      Except.ok (some ⟨"a1", some "t", none, "u", none, none⟩) ∧
    normalizeVideoItem "v1"
        ⟨none, some ⟨none, none, none, none, none, some ⟨none, some ⟨some "hu"⟩⟩,
          none, none⟩, some ⟨none⟩, some ⟨none, none, none⟩⟩ =
      Except.ok ⟨"v1", none, none, none, none, none, "hu", "", 0, 0, 0, [], none⟩ ∧
    normalizeTrendingItem
        ⟨some "t1", some ⟨none, none, none, none, none,
          some ⟨some ⟨some "du"⟩, none⟩, none, none⟩, none, some ⟨some 5, none, none⟩⟩ =
      Except.ok ⟨"t1", none, none, "du", none, none, 5⟩ :=
  ⟨C1_theorem.1 "a1" (by decide) (some "t") none none none "u" none,
   C1_theorem.2.1 "v1" none none none none none none none "hu" none none none none
     none none,
   C1_theorem.2.2 "t1" none none none none none none "du" none none none (some 5)
     none none⟩

/-- C2: the claim as stated is false.  When the entire `statistics` facet
is absent from an otherwise complete item, `get_video_details` raises a
missing-key error (`item["statistics"]` is indexed directly) instead of
producing count fields equal to 0. -/
theorem C2_counterexample :
    get_video_details "v1"
        ⟨some [⟨none, some ⟨none, none, none, none, none,
          some ⟨none, some ⟨some "hu"⟩⟩, none, none⟩, some ⟨some "PT1M"⟩, none⟩]⟩ =
      Except.error "KeyError: statistics" := rfl

/-- C2 (amended): when the `statistics` facet is present (and the other
directly indexed facets are present), each count field is the verbatim
upstream statistics value when the key is present and 0 when the
individual key is absent — in `get_video_details` for view, like and
comment counts and in `get_trending_shorts` for the view count.  When the
entire statistics facet is absent, normalization raises a missing-key
error instead of defaulting the counts to 0. -/
theorem C2_theorem :
    (∀ (vid : String) (oid : Option String) (t de cid ct pa : Option String)
      (odef : Option Thumbnail) (u : String) (tg : Option (List String))
      (cat dur : Option String) (vc lc cc : Option Int),
      (normalizeVideoItem vid
          ⟨oid, some ⟨t, de, cid, ct, pa, some ⟨odef, some ⟨some u⟩⟩, tg, cat⟩,
            some ⟨dur⟩, some ⟨vc, lc, cc⟩⟩).map
          (fun d => (d.view_count, d.like_count, d.comment_count)) =
        Except.ok (vc.getD 0, lc.getD 0, cc.getD 0)) ∧
    (∀ (vid : String) (t de cid ct pa : Option String) (ohigh : Option Thumbnail)
      (u : String) (tg : Option (List String)) (cat : Option String)
      (ocd : Option ContentDetails) (vc lc cc : Option Int),
      (normalizeTrendingItem
          ⟨some vid, some ⟨t, de, cid, ct, pa, some ⟨some ⟨some u⟩, ohigh⟩, tg, cat⟩,
            ocd, some ⟨vc, lc, cc⟩⟩).map (fun e => e.view_count) =
        Except.ok (vc.getD 0)) := by
  refine ⟨?_, ?_⟩
  · intro vid oid t de cid ct pa odef u tg cat dur vc lc cc
    rfl
  · intro vid t de cid ct pa ohigh u tg cat ocd vc lc cc
    rfl

/-- C3: confirmed.  For a request carrying a non-empty query, if the
upstream response honors the requested `max_results` bound (its item list
is no longer than the `max_results` the handler computes and passes
upstream), then a 200 response from the search endpoint wraps at most
`max_results` summaries, each with a non-empty (hence non-null)
identifier. -/
theorem C3_theorem (args : Args) (q : String) (resp : SearchResponse)
    (out : List ShortSummary) (calls : List UpstreamCall)
    (hq : args.q = some q) (hne : q ≠ "")
    (hlen : (((resp.items.getD []).length : Int)) ≤ flaskGetInt args.max_results 10)
    (hend : searchEndpoint args (Except.ok resp) =
      (⟨200, RespBody.searchData out⟩, calls)) :
    ((out.length : Int) ≤ flaskGetInt args.max_results 10) ∧
      ∀ s ∈ out, s.video_id ≠ "" := by
  cases hs : search_shorts resp with
  | error e => simp [searchEndpoint, hq, hne, hs] at hend
  | ok results =>
    simp [searchEndpoint, hq, hne, hs] at hend
    have hs' : normalizeSearchItems (resp.items.getD []) = Except.ok results := hs
    have hm := normalizeSearchItems_ok _ _ hs'
    have hout : results = out := hend.1
    subst hout
    constructor
    · have h1 : results.length = (List.filterMap specResolvableId
          (resp.items.getD [])).length := by
        rw [← hm, List.length_map]
      have h2 := List.length_filterMap_le specResolvableId (resp.items.getD [])
      omega
    · intro s hsmem
      have hmem : s.video_id ∈ results.map (fun s => s.video_id) :=
        List.mem_map_of_mem _ hsmem
      rw [hm] at hmem
      obtain ⟨it, _, hit⟩ := List.mem_filterMap.mp hmem
      exact specResolvableId_ne_empty it _ hit

/-- C3 witness: the theorem applied to a concrete request and a concrete
one-item upstream response. -/
theorem C3_witness :
    ((([(⟨"a1", some "t", none, "u", none, none⟩ : ShortSummary)].length : Int)) ≤
      flaskGetInt none 10) ∧
    ∀ s ∈ [(⟨"a1", some "t", none, "u", none, none⟩ : ShortSummary)],
      s.video_id ≠ "" :=
  C3_theorem ⟨some "cats", none, none⟩ "cats"
    ⟨some [⟨some ⟨some "a1"⟩,
      some ⟨some "t", none, some ⟨some ⟨some "u"⟩, none⟩, none, none⟩⟩]⟩
    [⟨"a1", some "t", none, "u", none, none⟩]
    [UpstreamCall.search "cats" 10] rfl (by decide) (by decide) rfl

/-- C4: confirmed.  When the upstream call raises a failure, each of the
three handlers returns HTTP 500 with the error envelope carrying the
failure's textual description unchanged, and the upstream call list has
exactly one entry (the failure is neither retried nor suppressed). -/
theorem C4_theorem :
    (∀ (args : Args) (q e : String), args.q = some q → q ≠ "" →
      searchEndpoint args (Except.error e) =
        (⟨500, RespBody.error e⟩,
          [UpstreamCall.search q (flaskGetInt args.max_results 10)])) ∧
    (∀ (vid e : String),
      detailEndpoint vid (Except.error e) =
        (⟨500, RespBody.error e⟩, [UpstreamCall.videos vid])) ∧
    (∀ (args : Args) (e : String),
      trendingEndpoint args (Except.error e) =
        (⟨500, RespBody.error e⟩,
          [UpstreamCall.trendingChart (flaskGetStr args.region "US")
            (flaskGetInt args.max_results 10)])) := by
  refine ⟨?_, ?_, ?_⟩
  · intro args q e hq hne
    simp [searchEndpoint, hq, hne]
  · intro vid e
    rfl
  · intro args e
    rfl

/-- C4 witness: the search conjunct applied at a concrete request and a
concrete upstream failure message. -/
theorem C4_witness :
    searchEndpoint ⟨some "cats", none, none⟩ (Except.error "quota exceeded") =
      (⟨500, RespBody.error "quota exceeded"⟩,
        [UpstreamCall.search "cats" (flaskGetInt none 10)]) :=
  C4_theorem.1 ⟨some "cats", none, none⟩ "cats" "quota exceeded" rfl (by decide)

/-- C5: the claim as stated is false.  At a video identifier whose
upstream lookup returns one item lacking the `statistics` facet, the
detail endpoint returns HTTP 500 (the normalization raises a missing-key
error that the handler catches), not the claimed HTTP 200, even though the
upstream item list is non-empty. -/
theorem C5_counterexample :
    detailEndpoint "v1"
        (Except.ok ⟨some [⟨none, some ⟨none, none, none, none, none,
          some ⟨none, some ⟨some "hu"⟩⟩, none, none⟩, some ⟨some "PT1M"⟩, none⟩]⟩) =
      (⟨500, RespBody.error "KeyError: statistics"⟩, [UpstreamCall.videos "v1"]) := rfl

/-- C5 (amended): with an empty (or absent) upstream item list the detail
endpoint returns HTTP 404 with body error "Video not found", never 200;
with a non-empty item list it returns HTTP 200 wrapping one ShortDetail
when normalization of the first item succeeds, and HTTP 500 with the
error's message when that normalization raises a missing-key error. -/
theorem C5_theorem :
    (∀ (vid : String) (resp : VideosResponse), resp.items.getD [] = [] →
      detailEndpoint vid (Except.ok resp) =
        (⟨404, RespBody.error "Video not found"⟩, [UpstreamCall.videos vid])) ∧
    (∀ (vid : String) (resp : VideosResponse) (item : VideoItem)
      (rest : List VideoItem) (d : ShortDetail), resp.items = some (item :: rest) →
      normalizeVideoItem vid item = Except.ok d →
      detailEndpoint vid (Except.ok resp) =
        (⟨200, RespBody.detailData d⟩, [UpstreamCall.videos vid])) ∧
    (∀ (vid : String) (resp : VideosResponse) (item : VideoItem)
      (rest : List VideoItem) (e : String), resp.items = some (item :: rest) →
      normalizeVideoItem vid item = Except.error e →
      detailEndpoint vid (Except.ok resp) =
        (⟨500, RespBody.error e⟩, [UpstreamCall.videos vid])) := by
  refine ⟨?_, ?_, ?_⟩
  · intro vid resp h
    rcases resp with ⟨oitems⟩
    cases oitems with
    | none => rfl
    | some l =>
      cases l with
      | nil => rfl
      | cons a l => simp at h
  · intro vid resp item rest d hitems hnorm
    rcases resp with ⟨oitems⟩
    simp only at hitems
    subst hitems
    simp [detailEndpoint, get_video_details, hnorm, Except.map]
  · intro vid resp item rest e hitems hnorm
    rcases resp with ⟨oitems⟩
    simp only at hitems
    subst hitems
    simp [detailEndpoint, get_video_details, hnorm, Except.map]

/-- C5 witness: the amended theorem applied at a concrete empty response,
a concrete normalizable item and a concrete malformed item. -/
theorem C5_witness :
    detailEndpoint "nf" (Except.ok ⟨some []⟩) =
      (⟨404, RespBody.error "Video not found"⟩, [UpstreamCall.videos "nf"]) ∧
    detailEndpoint "v1" (Except.ok ⟨some [⟨none, some ⟨none, none, none, none, none,
        some ⟨none, some ⟨some "hu"⟩⟩, none, none⟩, some ⟨none⟩,
        some ⟨none, none, none⟩⟩]⟩) =
      (⟨200, RespBody.detailData
        ⟨"v1", none, none, none, none, none, "hu", "", 0, 0, 0, [], none⟩⟩,
        [UpstreamCall.videos "v1"]) ∧
    detailEndpoint "v2" (Except.ok ⟨some [⟨none, none, none, none⟩]⟩) =
      (⟨500, RespBody.error "KeyError: contentDetails"⟩,
        [UpstreamCall.videos "v2"]) :=
  ⟨C5_theorem.1 "nf" ⟨some []⟩ rfl,
   C5_theorem.2.1 "v1" ⟨some [⟨none, some ⟨none, none, none, none, none,
     some ⟨none, some ⟨some "hu"⟩⟩, none, none⟩, some ⟨none⟩,
     some ⟨none, none, none⟩⟩]⟩
     ⟨none, some ⟨none, none, none, none, none, some ⟨none, some ⟨some "hu"⟩⟩,
       none, none⟩, some ⟨none⟩, some ⟨none, none, none⟩⟩ []
     ⟨"v1", none, none, none, none, none, "hu", "", 0, 0, 0, [], none⟩ rfl rfl,
   C5_theorem.2.2 "v2" ⟨some [⟨none, none, none, none⟩]⟩ ⟨none, none, none, none⟩
     [] "KeyError: contentDetails" rfl rfl⟩

/-- C6: confirmed.  Whenever the query parameter `q` is absent or equal to
the empty string, and whatever the other parameters and the upstream
outcome would be, the search endpoint returns HTTP 400 with the error
envelope message "Query parameter 'q' is required" and issues no upstream
call. -/
theorem C6_theorem (args : Args) (upstream : Except String SearchResponse)
    (h : args.q = none ∨ args.q = some "") :
    searchEndpoint args upstream =
      (⟨400, RespBody.error "Query parameter 'q' is required"⟩, []) := by
  rcases h with h | h <;> simp [searchEndpoint, h]

/-- C6 witness: the theorem applied at a concrete request with `q` absent
and other parameters set. -/
theorem C6_witness :
    searchEndpoint ⟨none, some "7", some "GB"⟩ (Except.error "quota") =
      (⟨400, RespBody.error "Query parameter 'q' is required"⟩, []) :=
  C6_theorem ⟨none, some "7", some "GB"⟩ (Except.error "quota") (Or.inl rfl)

/-- On success, the search loop's output is exactly the in-order list of
per-item normalizations that produced a summary. -/
lemma normalizeSearchItems_ok_eq (items : List SearchItem) (out : List ShortSummary)
    (h : normalizeSearchItems items = Except.ok out) :
    out = items.filterMap (fun it => ((normalizeSearchItem it).toOption).join) := by
  induction items generalizing out with
  | nil =>
    simp [normalizeSearchItems] at h
    subst h
    rfl
  | cons item rest ih =>
    cases hi : normalizeSearchItem item with
    | error e => simp [normalizeSearchItems, hi, Bind.bind, Except.bind] at h
    | ok o =>
      cases ht : normalizeSearchItems rest with
      | error e => simp [normalizeSearchItems, hi, ht, Bind.bind, Except.bind] at h
      | ok tail =>
        have ihv := ih tail ht
        cases o with
        | some s =>
          simp [normalizeSearchItems, hi, ht, Bind.bind, Except.bind, Pure.pure,
            Except.pure] at h
          subst h
          simp [List.filterMap_cons, hi, Except.toOption, Option.join, ihv]
        | none =>
          simp [normalizeSearchItems, hi, ht, Bind.bind, Except.bind, Pure.pure,
            Except.pure] at h
          subst h
          simp [List.filterMap_cons, hi, Except.toOption, Option.join, ihv]

/-- C7: the claim as stated is false.  An upstream item lacking a video
identifier because its whole `id` object is absent is not silently
skipped: `item["id"]` is indexed directly, so `search_shorts` raises a
missing-key error at such an item. -/
theorem C7_counterexample :
    search_shorts ⟨some [⟨none, none⟩]⟩ = Except.error "KeyError: id" := rfl

/-- C7 (amended): an item whose `id` object is present but carries no
`videoId` (or an empty one) is silently skipped, whatever its snippet
holds; and whenever normalization completes without error, the output is
exactly the upstream items with a resolvable identifier, each normalized,
in the upstream order — their identifiers are the in-order resolvable
identifiers of the input.  An item lacking the `id` object altogether
instead raises a missing-key error. -/
theorem C7_theorem :
    (∀ (snip : Option SearchSnippet),
      normalizeSearchItem ⟨some ⟨none⟩, snip⟩ = Except.ok none) ∧
    (∀ (snip : Option SearchSnippet),
      normalizeSearchItem ⟨some ⟨some ""⟩, snip⟩ = Except.ok none) ∧
    (∀ (items : List SearchItem) (out : List ShortSummary),
      normalizeSearchItems items = Except.ok out →
      out.map (fun s => s.video_id) = items.filterMap specResolvableId) ∧
    (∀ (items : List SearchItem) (out : List ShortSummary),
      normalizeSearchItems items = Except.ok out →
      out = items.filterMap (fun it => ((normalizeSearchItem it).toOption).join)) :=
  ⟨fun _ => rfl, fun _ => rfl, normalizeSearchItems_ok, normalizeSearchItems_ok_eq⟩

/-- C7 witness: the amended theorem applied to a concrete response with
one skipped and one kept item. -/
theorem C7_witness :
    [(⟨"a1", some "t", none, "u", none, none⟩ : ShortSummary)].map
        (fun s => s.video_id) =
      List.filterMap specResolvableId
        [⟨some ⟨none⟩, none⟩, ⟨some ⟨some "a1"⟩,
          some ⟨some "t", none, some ⟨some ⟨some "u"⟩, none⟩, none, none⟩⟩] ∧
    [(⟨"a1", some "t", none, "u", none, none⟩ : ShortSummary)] =
      List.filterMap (fun it => ((normalizeSearchItem it).toOption).join)
        [⟨some ⟨none⟩, none⟩, ⟨some ⟨some "a1"⟩,
          some ⟨some "t", none, some ⟨some ⟨some "u"⟩, none⟩, none, none⟩⟩] :=
  ⟨C7_theorem.2.2.1
      [⟨some ⟨none⟩, none⟩, ⟨some ⟨some "a1"⟩,
        some ⟨some "t", none, some ⟨some ⟨some "u"⟩, none⟩, none, none⟩⟩]
      [⟨"a1", some "t", none, "u", none, none⟩] rfl,
   C7_theorem.2.2.2
      [⟨some ⟨none⟩, none⟩, ⟨some ⟨some "a1"⟩,
        some ⟨some "t", none, some ⟨some ⟨some "u"⟩, none⟩, none, none⟩⟩]
      [⟨"a1", some "t", none, "u", none, none⟩] rfl⟩

/-- C8: confirmed.  On success, `get_trending_shorts` returns item-by-item
normalizations of the upstream list in the upstream order (a pointwise
correspondence, so no reordering or sorting happens), and the output
identifiers are the upstream item identifiers in the upstream order. -/
theorem C8_theorem (items : List VideoItem) (out : List TrendingEntry)
    (h : normalizeTrendingItems items = Except.ok out) :
    List.Forall₂ (fun it e => normalizeTrendingItem it = Except.ok e) items out ∧
    out.map (fun e => e.video_id) = items.filterMap (fun it => it.id) := by
  induction items generalizing out with
  | nil =>
    simp [normalizeTrendingItems] at h
    subst h
    exact ⟨List.Forall₂.nil, rfl⟩
  | cons item rest ih =>
    cases hi : normalizeTrendingItem item with
    | error e => simp [normalizeTrendingItems, hi, Bind.bind, Except.bind] at h
    | ok entry =>
      cases ht : normalizeTrendingItems rest with
      | error e => simp [normalizeTrendingItems, hi, ht, Bind.bind, Except.bind] at h
      | ok tail =>
        simp [normalizeTrendingItems, hi, ht, Bind.bind, Except.bind, Pure.pure,
          Except.pure] at h
        subst h
        obtain ⟨ihf, ihm⟩ := ih tail ht
        refine ⟨List.Forall₂.cons hi ihf, ?_⟩
        have hid := normalizeTrendingItem_ok item entry hi
        simp [List.filterMap_cons, hid, ihm]

/-- C8 witness: the theorem applied to a concrete two-item upstream
chart response. -/
theorem C8_witness :
    List.Forall₂ (fun it e => normalizeTrendingItem it = Except.ok e)
      [⟨some "t1", some ⟨none, none, none, none, none,
          some ⟨some ⟨some "d1"⟩, none⟩, none, none⟩, none, some ⟨some 5, none, none⟩⟩,
        ⟨some "t2", some ⟨none, none, none, none, none,
          some ⟨some ⟨some "d2"⟩, none⟩, none, none⟩, none, some ⟨none, none, none⟩⟩]
      [⟨"t1", none, none, "d1", none, none, 5⟩,
        ⟨"t2", none, none, "d2", none, none, 0⟩] ∧
    [(⟨"t1", none, none, "d1", none, none, 5⟩ : TrendingEntry),
        ⟨"t2", none, none, "d2", none, none, 0⟩].map (fun e => e.video_id) =
      List.filterMap (fun it => it.id)
        [⟨some "t1", some ⟨none, none, none, none, none,
          some ⟨some ⟨some "d1"⟩, none⟩, none, none⟩, none, some ⟨some 5, none, none⟩⟩,
          (⟨some "t2", some ⟨none, none, none, none, none,
          some ⟨some ⟨some "d2"⟩, none⟩, none, none⟩, none,
            some ⟨none, none, none⟩⟩ : VideoItem)] :=
  C8_theorem
    [⟨some "t1", some ⟨none, none, none, none, none,
        some ⟨some ⟨some "d1"⟩, none⟩, none, none⟩, none, some ⟨some 5, none, none⟩⟩,
      ⟨some "t2", some ⟨none, none, none, none, none,
        some ⟨some ⟨some "d2"⟩, none⟩, none, none⟩, none, some ⟨none, none, none⟩⟩]
    [⟨"t1", none, none, "d1", none, none, 5⟩,
      ⟨"t2", none, none, "d2", none, none, 0⟩] rfl

/-- C9: confirmed.  Whatever the upstream item holds (in particular
whatever its own `id` says), a detail record returned by
`get_video_details` carries the caller's requested identifier as its
`video_id`. -/
theorem C9_theorem (vid : String) (resp : VideosResponse) (d : ShortDetail)
    (h : get_video_details vid resp = Except.ok (some d)) : d.video_id = vid := by
  rcases resp with ⟨oitems⟩
  cases oitems with
  | none => simp [get_video_details] at h
  | some l =>
    cases l with
    | nil => simp [get_video_details] at h
    | cons item rest =>
      cases hn : normalizeVideoItem vid item with
      | error e => simp [get_video_details, hn, Except.map] at h
      | ok d' =>
        simp [get_video_details, hn, Except.map] at h
        subst h
        exact normalizeVideoItem_vid vid item d' hn

/-- C9 witness: the theorem applied to an upstream item whose own `id`
says "other" while the caller asked for "req". -/
theorem C9_witness :
    (⟨"req", none, none, none, none, none, "hu", "", 0, 0, 0, [],
      none⟩ : ShortDetail).video_id = "req" :=
  C9_theorem "req"
    ⟨some [⟨some "other", some ⟨none, none, none, none, none,
      some ⟨none, some ⟨some "hu"⟩⟩, none, none⟩, some ⟨none⟩,
      some ⟨none, none, none⟩⟩]⟩
    ⟨"req", none, none, none, none, none, "hu", "", 0, 0, 0, [], none⟩ rfl

/-- C10: confirmed.  When the `max_results` query parameter is present but
`int` cannot parse it, both the search and the trending endpoint behave
exactly as if the parameter had been omitted: Flask's typed
`args.get` swallows the conversion error and substitutes the default 10,
and the request proceeds. -/
theorem C10_theorem (s : String) (args : Args)
    (u1 : Except String SearchResponse) (u2 : Except String VideosResponse)
    (h : pyInt s = none) :
    searchEndpoint { args with max_results := some s } u1 =
      searchEndpoint { args with max_results := none } u1 ∧
    trendingEndpoint { args with max_results := some s } u2 =
      trendingEndpoint { args with max_results := none } u2 := by
  rcases args with ⟨oq, om, oreg⟩
  constructor
  · simp [searchEndpoint, flaskGetInt, h]
  · simp [trendingEndpoint, flaskGetInt, h]

/-- C10 witness: the theorem applied at the unparseable value "abc" with
concrete requests and upstream responses. -/
theorem C10_witness :
    searchEndpoint ⟨some "cats", some "abc", none⟩ (Except.ok ⟨some []⟩) =
      searchEndpoint ⟨some "cats", none, none⟩ (Except.ok ⟨some []⟩) ∧
    trendingEndpoint ⟨none, some "abc", none⟩ (Except.ok ⟨some []⟩) =
      trendingEndpoint ⟨none, none, none⟩ (Except.ok ⟨some []⟩) :=
  C10_theorem "abc" ⟨some "cats", none, none⟩ (Except.ok ⟨some []⟩)
    (Except.ok ⟨some []⟩) (by decide)

end Shortfinder
